import Mathlib

/-!
Shallow embedding of `src/system_backup.cpp` (repository `acronis_alternative`),
a VSS-based file-level backup tool.  External effects (COM/VSS calls, the
`subst` shell command, filesystem enumeration and copy, raw-device reads) are
modelled by an environment record that fixes the outcome of every external
call; each C++ function becomes a Lean function from that environment to its
boolean result together with the trace of external calls it issued and the
state it leaves behind.  Wide strings are lists of UTF-16 code units
(`List Nat`); HRESULTs are `Int` with `FAILED hr ↔ hr < 0`.
-/

set_option maxHeartbeats 1000000

/-- The `FAILED` macro of the Windows API: an HRESULT denotes failure iff it is
negative. -/
def FAILED (hr : Int) : Bool := decide (hr < 0)

/-- One external call issued by the program, in program order.  Events carry no
payload; the environment determines each call's outcome. -/
inductive Event where
  | coInitialize
  | createComponents
  | initForBackup
  | setBackupState
  | startSnapshotSet
  | addToSnapshotSet
  | prepareForBackup
  | prepareWait
  | doSnapshotSet
  | snapshotWait
  | getSnapshotProps
  | substMap
  | enumerateDir
  | copyCall
  | substUnmap
  | unmapFailLog
  | backupComplete
  | completeWait
  | openDrive
  | readBootRecord
  | writeBootRecord
  | layoutQuery
  | writeLayout
  deriving DecidableEq

/-- A file tree as a finite map from paths (lists of components) to file
contents (byte lists); directories are implicit in path structure. -/
abbrev FileTree : Type := List (List String × List Nat)

/-- Lookup of a path in a file tree (first matching entry wins). -/
def tlookup (t : FileTree) (p : List String) : Option (List Nat) :=
  match t with
  | [] => none
  | e :: rest => if e.1 = p then some e.2 else tlookup rest p

/-- First-defined choice on options (used to state map-union semantics). -/
def ofirst (a b : Option (List Nat)) : Option (List Nat) :=
  match a with
  | some v => some v
  | none => b

/-- Semantics of `std::filesystem::copy(src, dst, recursive | overwrite_existing)`
at the file-map level: every source file is copied (overwriting a destination
file at the same path); destination entries with no source counterpart are left
in place.  No deletion of extraneous destination entries is performed. -/
def copyRecursiveOverwrite (src dst : FileTree) : FileTree :=
  src ++ dst.filter (fun e => (tlookup src e.1).isNone)

/-- The loop body of `VSSFileLevelBackup::FindAvailableDriveLetter`: starting
at code unit `c`, try `remaining` consecutive letters, returning the first one
whose bit `c - 'A'` is clear in `mask`, and `0` if all are set. -/
def findFreeLetterAux (mask : Nat) : Nat → Nat → Nat
  | _, 0 => 0
  | c, r + 1 => if mask.testBit (c - 65) then findFreeLetterAux mask (c + 1) r else c

/-- `VSSFileLevelBackup::FindAvailableDriveLetter`: scans letters `'C'` (67)
through `'Z'` (90) against the `GetLogicalDrives` bitmask and returns the first
letter whose bit is clear, or `0` when every letter C..Z is in use. -/
def FindAvailableDriveLetter (drivesMask : Nat) : Nat :=
  findFreeLetterAux drivesMask 67 24

/-- Bool test that every letter of the enumerable alias space C..Z is marked
in-use in the logical-drives bitmask. -/
def allLettersInUse (mask : Nat) : Bool :=
  (List.range 24).all (fun i => mask.testBit (i + 2))

/-- Outcomes of every external call the VSS backup object can make.  -/
structure VssEnv where
  hrCoInit : Int
  hrCreateComponents : Int
  hrInitForBackup : Int
  hrSetBackupState : Int
  hrStartSnapshotSet : Int
  hrAddToSnapshotSet : Int
  hrPrepareForBackup : Int
  prepareAsyncPresent : Bool
  hrPrepareWait : Int
  hrDoSnapshotSet : Int
  snapshotAsyncPresent : Bool
  hrSnapshotWait : Int
  hrGetSnapshotProps : Int
  shadowPath : List Nat
  drivesMask : Nat
  substMapResult : Int
  enumOk : Bool
  copyThrows : Bool
  shadowTree : FileTree
  destTree : FileTree
  abortTree : FileTree
  substUnmapResult : Int
  hrBackupComplete : Int
  completeAsyncPresent : Bool
  hrCompleteWait : Int
  deriving DecidableEq

/-- Mutable state of the `VSSFileLevelBackup` object that outlives a member
call: the `mappedDriveLetter` field (0 = no mapping recorded). -/
structure BackupState where
  mappedDriveLetter : Nat
  deriving DecidableEq

/-- `VSSFileLevelBackup::Initialize`: CoInitializeEx, CreateVssBackupComponents,
InitializeForBackup, SetBackupState, each guarded by `CHECK_HR_AND_FAIL`. -/
def Initialize (v : VssEnv) : Bool × List Event :=
  if FAILED v.hrCoInit then (false, [.coInitialize])
  else if FAILED v.hrCreateComponents then (false, [.coInitialize, .createComponents])
  else if FAILED v.hrInitForBackup then
    (false, [.coInitialize, .createComponents, .initForBackup])
  else if FAILED v.hrSetBackupState then
    (false, [.coInitialize, .createComponents, .initForBackup, .setBackupState])
  else (true, [.coInitialize, .createComponents, .initForBackup, .setBackupState])

/-- `VSSFileLevelBackup::CreateSnapshot`: StartSnapshotSet, AddToSnapshotSet,
PrepareForBackup with a blocking `Wait` on its async token (when the service
hands one back), DoSnapshotSet with a blocking `Wait` on its async token; each
step guarded by `CHECK_HR_AND_FAIL`. -/
def CreateSnapshot (v : VssEnv) : Bool × List Event :=
  if FAILED v.hrStartSnapshotSet then (false, [.startSnapshotSet])
  else if FAILED v.hrAddToSnapshotSet then (false, [.startSnapshotSet, .addToSnapshotSet])
  else if FAILED v.hrPrepareForBackup then
    (false, [.startSnapshotSet, .addToSnapshotSet, .prepareForBackup])
  else if v.prepareAsyncPresent && FAILED v.hrPrepareWait then
    (false, [.startSnapshotSet, .addToSnapshotSet, .prepareForBackup, .prepareWait])
  else
    let t1 := [Event.startSnapshotSet, .addToSnapshotSet, .prepareForBackup] ++
      (if v.prepareAsyncPresent then [Event.prepareWait] else [])
    if FAILED v.hrDoSnapshotSet then (false, t1 ++ [.doSnapshotSet])
    else if v.snapshotAsyncPresent && FAILED v.hrSnapshotWait then
      (false, t1 ++ [.doSnapshotSet, .snapshotWait])
    else (true, t1 ++ [.doSnapshotSet] ++
      (if v.snapshotAsyncPresent then [Event.snapshotWait] else []))

/-- Spec-side phase list for `createSnapshot`, written from the spec's words:
the strictly ordered phases start-set, add-source, prepare (with its blocking
wait when an async token is returned), commit snapshot (with its blocking
wait), each tagged with whether it succeeds in the given environment. -/
def snapshotPhaseSteps (v : VssEnv) : List (Event × Bool) :=
  [(.startSnapshotSet, !(FAILED v.hrStartSnapshotSet)),
   (.addToSnapshotSet, !(FAILED v.hrAddToSnapshotSet)),
   (.prepareForBackup, !(FAILED v.hrPrepareForBackup))] ++
  (if v.prepareAsyncPresent then [(Event.prepareWait, !(FAILED v.hrPrepareWait))] else []) ++
  [(.doSnapshotSet, !(FAILED v.hrDoSnapshotSet))] ++
  (if v.snapshotAsyncPresent then [(Event.snapshotWait, !(FAILED v.hrSnapshotWait))] else [])

/-- Spec-side executor: runs phases strictly in list order, never skipping or
reordering; the first failing phase ends the run with failure and no later
phase is started. -/
def runPhases : List (Event × Bool) → Bool × List Event
  | [] => (true, [])
  | (e, ok) :: rest =>
    if ok then
      let r := runPhases rest
      (r.1, e :: r.2)
    else (false, [e])

/-- `VSSFileLevelBackup::CleanupSubstDrive`: when a drive letter is recorded,
run `subst X: /d` (logging on a nonzero exit code, which is otherwise ignored)
and reset the recorded letter to 0; otherwise do nothing. -/
def CleanupSubstDrive (v : VssEnv) (st : BackupState) : List Event × BackupState :=
  if st.mappedDriveLetter ≠ 0 then
    (if v.substUnmapResult ≠ 0 then [.substUnmap, .unmapFailLog] else [.substUnmap], ⟨0⟩)
  else ([], st)

/-- Result of `VSSFileLevelBackup::FileLevelBackup`: boolean outcome, trace of
external calls, object state on return, and the destination file tree after
the call. -/
structure FLBResult where
  ok : Bool
  trace : List Event
  state : BackupState
  dest : FileTree
  deriving DecidableEq

/-- `VSSFileLevelBackup::FileLevelBackup`: get snapshot properties, reject an
empty shadow-device path, pick a free drive letter, `subst` the shadow device
onto it, enumerate the mapped root (an enumeration error unmaps and fails),
then `std::filesystem::copy` recursively with overwrite; a copy exception
unmaps and fails (the partially written destination is environment-chosen);
on success the mapping is removed and the destination holds the
recursive-overwrite image of the shadow tree over the old destination tree. -/
def FileLevelBackup (v : VssEnv) (st : BackupState) : FLBResult :=
  if FAILED v.hrGetSnapshotProps then ⟨false, [.getSnapshotProps], st, v.destTree⟩
  else if v.shadowPath.isEmpty then ⟨false, [.getSnapshotProps], st, v.destTree⟩
  else if FindAvailableDriveLetter v.drivesMask = 0 then
    ⟨false, [.getSnapshotProps], st, v.destTree⟩
  else
    let st1 : BackupState := ⟨FindAvailableDriveLetter v.drivesMask⟩
    if v.substMapResult ≠ 0 then ⟨false, [.getSnapshotProps, .substMap], st1, v.destTree⟩
    else if !v.enumOk then
      let c := CleanupSubstDrive v st1
      ⟨false, [.getSnapshotProps, .substMap, .enumerateDir] ++ c.1, c.2, v.destTree⟩
    else if v.copyThrows then
      let c := CleanupSubstDrive v st1
      ⟨false, [.getSnapshotProps, .substMap, .enumerateDir, .copyCall] ++ c.1, c.2, v.abortTree⟩
    else
      let c := CleanupSubstDrive v st1
      ⟨true, [.getSnapshotProps, .substMap, .enumerateDir, .copyCall] ++ c.1, c.2,
        copyRecursiveOverwrite v.shadowTree v.destTree⟩

/-- `VSSFileLevelBackup::Cleanup`: when the components pointer is non-null,
issue `BackupComplete` and block on its async token's `Wait` (when one is
handed back), failing if either reports failure. -/
def CleanupVss (v : VssEnv) (hasComponents : Bool) : Bool × List Event :=
  if !hasComponents then (true, [])
  else if FAILED v.hrBackupComplete then (false, [.backupComplete])
  else if v.completeAsyncPresent && FAILED v.hrCompleteWait then
    (false, [.backupComplete, .completeWait])
  else (true, [.backupComplete] ++
    (if v.completeAsyncPresent then [Event.completeWait] else []))

/-- Outcomes of the external calls of `CapturePhysicalDriveMetadata`.
`readData` is the byte sequence `ReadFile` actually delivers (its length is
the reported `bytesRead`, at most 4096); `bootJunk` is the uninitialized
remainder of the 4096-byte buffer.  `layoutData` is the byte sequence the
layout IOCTL actually returns (its length is the reported `bytesReturned`);
`layoutJunk` is the unwritten remainder of the allocated buffer. -/
structure MetaEnv where
  openOk : Bool
  readOk : Bool
  readData : List Nat
  bootJunk : List Nat
  bootFileOpenOk : Bool
  bootWriteThrows : Bool
  ioctlOk : Bool
  layoutData : List Nat
  layoutJunk : List Nat
  layoutFileOpenOk : Bool
  layoutWriteThrows : Bool
  deriving DecidableEq

/-- Result of `CapturePhysicalDriveMetadata`: boolean outcome and the contents
of the two artifact files (`none` = the artifact was not produced). -/
structure MetaResult where
  ok : Bool
  bootArtifact : Option (List Nat)
  layoutArtifact : Option (List Nat)
  trace : List Event
  deriving DecidableEq

/-- `CapturePhysicalDriveMetadata`: open the physical drive, `ReadFile` up to
4096 bytes into the boot buffer, write the first `bytesRead` bytes of that
buffer to `boot_record.bin`, then issue `IOCTL_DISK_GET_DRIVE_LAYOUT_EX` and
write the first `bytesReturned` bytes of the layout buffer to
`drive_layout.bin`; each step returns failure on error, aborting the rest of
the function (but artifacts already written stay on disk). -/
def CapturePhysicalDriveMetadata (m : MetaEnv) : MetaResult :=
  if !m.openOk then ⟨false, none, none, [.openDrive]⟩
  else if !m.readOk then ⟨false, none, none, [.openDrive, .readBootRecord]⟩
  else if !m.bootFileOpenOk then ⟨false, none, none, [.openDrive, .readBootRecord]⟩
  else
    let bootBytes := (m.readData ++ m.bootJunk).take m.readData.length
    if m.bootWriteThrows then
      ⟨false, none, none, [.openDrive, .readBootRecord, .writeBootRecord]⟩
    else if !m.ioctlOk then
      ⟨false, some bootBytes, none,
        [.openDrive, .readBootRecord, .writeBootRecord, .layoutQuery]⟩
    else if !m.layoutFileOpenOk then
      ⟨false, some bootBytes, none,
        [.openDrive, .readBootRecord, .writeBootRecord, .layoutQuery]⟩
    else
      let layoutBytes := (m.layoutData ++ m.layoutJunk).take m.layoutData.length
      if m.layoutWriteThrows then
        ⟨false, some bootBytes, none,
          [.openDrive, .readBootRecord, .writeBootRecord, .layoutQuery, .writeLayout]⟩
      else
        ⟨true, some bootBytes, some layoutBytes,
          [.openDrive, .readBootRecord, .writeBootRecord, .layoutQuery, .writeLayout]⟩

/-- Events emitted by the `VSSFileLevelBackup` destructor, which calls
`CleanupSubstDrive` on the state the object holds when `wmain` returns. -/
def dtorTrace (v : VssEnv) (st : BackupState) : List Event :=
  (CleanupSubstDrive v st).1

/-- The default source volume `"C:\"` as UTF-16 code units. -/
def cRoot : List Nat := [67, 58, 92]

/-- Inputs of one `wmain` run: admin check outcome, the three prompt lines,
whether `std::stoi` parses the drive-number line, and the environments of the
backup object and the metadata capture. -/
structure WmainEnv where
  adminOk : Bool
  volumeInput : List Nat
  destInput : List Nat
  driveNumInput : List Nat
  stoiOk : Bool
  vss : VssEnv
  meta : MetaEnv
  deriving DecidableEq

/-- Observable outcome of a `wmain` run: process exit code, full trace of
external calls (destructor included), and the volume string handed to the
backup object. -/
structure WmainResult where
  exitCode : Nat
  trace : List Event
  volumeUsed : List Nat
  deriving DecidableEq

/-- `wmain`: admin check; volume prompt (empty input defaults to `"C:\"`);
destination prompt (empty input exits 1); drive-number prompt (parse failures
default to 0); then Initialize, CreateSnapshot, FileLevelBackup, Cleanup and
CapturePhysicalDriveMetadata in order, each failure exiting 1 immediately; the
backup object's destructor runs on every return after its construction. -/
def wmain (env : WmainEnv) : WmainResult :=
  if !env.adminOk then ⟨1, [], []⟩
  else
    let volume := if env.volumeInput.isEmpty then cRoot else env.volumeInput
    if env.destInput.isEmpty then ⟨1, [], volume⟩
    else
      let st0 : BackupState := ⟨0⟩
      let i := Initialize env.vss
      if !i.1 then ⟨1, i.2 ++ dtorTrace env.vss st0, volume⟩
      else
        let s := CreateSnapshot env.vss
        if !s.1 then ⟨1, i.2 ++ s.2 ++ dtorTrace env.vss st0, volume⟩
        else
          let f := FileLevelBackup env.vss st0
          if !f.ok then ⟨1, i.2 ++ s.2 ++ f.trace ++ dtorTrace env.vss f.state, volume⟩
          else
            let c := CleanupVss env.vss true
            if !c.1 then
              ⟨1, i.2 ++ s.2 ++ f.trace ++ c.2 ++ dtorTrace env.vss f.state, volume⟩
            else
              let m := CapturePhysicalDriveMetadata env.meta
              if !m.ok then
                ⟨1, i.2 ++ s.2 ++ f.trace ++ c.2 ++ m.trace ++ dtorTrace env.vss f.state,
                  volume⟩
              else
                ⟨0, i.2 ++ s.2 ++ f.trace ++ c.2 ++ m.trace ++ dtorTrace env.vss f.state,
                  volume⟩

/-- Whether the whole job fully succeeded: admin check passed, a destination
was given, and every phase (VSS initialization, snapshot creation, file-level
copy, session completion, metadata capture) succeeded. -/
def fullSuccess (env : WmainEnv) : Bool :=
  env.adminOk && !env.destInput.isEmpty && (Initialize env.vss).1 &&
  (CreateSnapshot env.vss).1 && (FileLevelBackup env.vss ⟨0⟩).ok &&
  (CleanupVss env.vss true).1 && (CapturePhysicalDriveMetadata env.meta).ok

/-- Whether control reaches the `backup.Cleanup()` call in `wmain`: the admin
and destination checks passed and initialization, snapshot creation, and the
file-level copy all succeeded. -/
def reachesCleanup (env : WmainEnv) : Bool :=
  env.adminOk && !env.destInput.isEmpty && (Initialize env.vss).1 &&
  (CreateSnapshot env.vss).1 && (FileLevelBackup env.vss ⟨0⟩).ok

/-- Whether control reaches the `backup.FileLevelBackup()` call in `wmain`. -/
def reachesFileBackup (env : WmainEnv) : Bool :=
  env.adminOk && !env.destInput.isEmpty && (Initialize env.vss).1 &&
  (CreateSnapshot env.vss).1

/-- Whether, inside `FileLevelBackup`, the alias mapping of the allocated
drive letter to the shadow device succeeds: snapshot properties retrieved, a
nonempty shadow path, a free drive letter found, and `subst` exiting 0. -/
def mapSucceeds (v : VssEnv) : Bool :=
  !(FAILED v.hrGetSnapshotProps) && !v.shadowPath.isEmpty &&
  !(FindAvailableDriveLetter v.drivesMask == 0) && (v.substMapResult == 0)

/-- The environment with only the exit code of the unmap `subst X: /d` call
replaced. -/
def setUnmapResult (env : WmainEnv) (r : Int) : WmainEnv :=
  { env with vss := { env.vss with substUnmapResult := r } }

/-- A `VssEnv` in which every external call succeeds: one shadow-tree file,
empty destination, drive letters A..C in use so D is allocated. -/
def vOK : VssEnv :=
  { hrCoInit := 0, hrCreateComponents := 0, hrInitForBackup := 0, hrSetBackupState := 0
    hrStartSnapshotSet := 0, hrAddToSnapshotSet := 0, hrPrepareForBackup := 0
    prepareAsyncPresent := true, hrPrepareWait := 0, hrDoSnapshotSet := 0
    snapshotAsyncPresent := true, hrSnapshotWait := 0, hrGetSnapshotProps := 0
    shadowPath := [88], drivesMask := 7, substMapResult := 0, enumOk := true
    copyThrows := false, shadowTree := [(["f.txt"], [1, 2])], destTree := []
    abortTree := [], substUnmapResult := 0, hrBackupComplete := 0
    completeAsyncPresent := true, hrCompleteWait := 0 }

/-- A `MetaEnv` in which every external call succeeds, with a short (3-byte)
boot-record read out of the 4096-byte buffer and a 2-byte layout result out of
a larger buffer. -/
def mOK : MetaEnv :=
  { openOk := true, readOk := true, readData := [1, 2, 3], bootJunk := [9, 9]
    bootFileOpenOk := true, bootWriteThrows := false, ioctlOk := true
    layoutData := [4, 5], layoutJunk := [8], layoutFileOpenOk := true
    layoutWriteThrows := false }

/-- A fully successful `wmain` run (nonempty destination, empty volume input). -/
def wOK : WmainEnv :=
  { adminOk := true, volumeInput := [], destInput := [68], driveNumInput := []
    stoiOk := true, vss := vOK, meta := mOK }

/-- A `wmain` run in which `CoInitializeEx` (the first step of VSS
initialization) fails; every later call would have succeeded. -/
def wInitFail : WmainEnv :=
  { wOK with vss := { vOK with hrCoInit := -2147467259 } }

/-- A `VssEnv` for a run whose snapshot tree is empty while the destination
already holds a pre-existing file `stale.txt` with no source counterpart. -/
def vStaleDest : VssEnv :=
  { vOK with shadowTree := [], destTree := [(["stale.txt"], [7])] }

/-- A `VssEnv` in which everything succeeds up to the copy, but one individual
file (e.g. a locked file) makes `std::filesystem::copy` throw
`filesystem_error`. -/
def vLockedFile : VssEnv := { vOK with copyThrows := true }

/-- A `VssEnv` in which enumerating the mapped snapshot root throws, i.e. no
files could be enumerated at all. -/
def vEnumFail : VssEnv := { vOK with enumOk := false }

/-- A `MetaEnv` in which the boot-record `ReadFile` fails; the layout query
and both file writes would have succeeded. -/
def mReadFail : MetaEnv := { mOK with readOk := false }

/-- A `VssEnv` whose logical-drives bitmask 67108863 = 2^26 - 1 marks every
letter A..Z (bits 0..25) as in use. -/
def vAllUsed : VssEnv := { vOK with drivesMask := 67108863 }

/-- A `MetaEnv` in which the layout IOCTL fails after a successful boot-record
capture. -/
def mIoctlFail : MetaEnv := { mOK with ioctlOk := false }

/-- A `wmain` run whose destination-folder prompt receives the empty string. -/
def wEmptyDest : WmainEnv := { wOK with destInput := [] }

/- ===================== helper lemmas ===================== -/

theorem tlookup_append (a b : FileTree) (p : List String) :
    tlookup (a ++ b) p = ofirst (tlookup a p) (tlookup b p) := by
  induction a with
  | nil => simp [tlookup, ofirst]
  | cons e rest ih =>
    by_cases h : e.1 = p
    · simp [tlookup, h, ofirst]
    · simp [tlookup, h, ih]

theorem tlookup_filter_src_none (src : FileTree) (p : List String)
    (h : tlookup src p = none) (dst : FileTree) :
    tlookup (dst.filter (fun e => (tlookup src e.1).isNone)) p = tlookup dst p := by
  induction dst with
  | nil => simp
  | cons e rest ih =>
    by_cases hp : e.1 = p
    · simp [List.filter_cons, hp, h, tlookup, ih]
    · by_cases hk : (tlookup src e.1).isNone
      · simp [List.filter_cons, hk, tlookup, hp, ih]
      · simp [List.filter_cons, hk, tlookup, hp, ih]

theorem copyRecursiveOverwrite_lookup (s d : FileTree) (p : List String) :
    tlookup (copyRecursiveOverwrite s d) p = ofirst (tlookup s p) (tlookup d p) := by
  unfold copyRecursiveOverwrite
  rw [tlookup_append]
  cases hs : tlookup s p with
  | some v => simp [ofirst]
  | none => simp [ofirst, tlookup_filter_src_none s p hs d]

theorem createSnapshot_count_zero (v : VssEnv) (e : Event)
    (h : e = Event.backupComplete ∨ e = Event.substUnmap ∨ e = Event.coInitialize) :
    (CreateSnapshot v).2.count e = 0 := by
  rcases h with rfl | rfl | rfl <;>
  · simp only [CreateSnapshot]
    repeat' split
    all_goals decide

theorem createSnapshot_runPhases (v : VssEnv) :
    CreateSnapshot v = runPhases (snapshotPhaseSteps v) := by
  by_cases h1 : FAILED v.hrStartSnapshotSet <;>
  by_cases h2 : FAILED v.hrAddToSnapshotSet <;>
  by_cases h3 : FAILED v.hrPrepareForBackup <;>
  by_cases hp : v.prepareAsyncPresent <;>
  by_cases h4 : FAILED v.hrPrepareWait <;>
  by_cases h5 : FAILED v.hrDoSnapshotSet <;>
  by_cases hs : v.snapshotAsyncPresent <;>
  by_cases h6 : FAILED v.hrSnapshotWait <;>
  simp [CreateSnapshot, snapshotPhaseSteps, runPhases, h1, h2, h3, hp, h4, h5, hs, h6]

theorem initialize_count_zero (v : VssEnv) (e : Event)
    (h : e = Event.backupComplete ∨ e = Event.substUnmap) :
    (Initialize v).2.count e = 0 := by
  rcases h with rfl | rfl <;>
  · simp only [Initialize]
    repeat' split
    all_goals decide

theorem flb_count_bc (v : VssEnv) (st : BackupState) :
    (FileLevelBackup v st).trace.count Event.backupComplete = 0 := by
  simp only [FileLevelBackup, CleanupSubstDrive]
  repeat' split
  all_goals simp_all

theorem cleanupVss_count_bc (v : VssEnv) :
    (CleanupVss v true).2.count Event.backupComplete = 1 := by
  simp only [CleanupVss]
  repeat' split
  all_goals simp_all

theorem cleanupVss_count_su (v : VssEnv) (b : Bool) :
    (CleanupVss v b).2.count Event.substUnmap = 0 := by
  simp only [CleanupVss]
  repeat' split
  all_goals simp_all

theorem meta_count_zero (m : MetaEnv) (e : Event)
    (h : e = Event.backupComplete ∨ e = Event.substUnmap) :
    (CapturePhysicalDriveMetadata m).trace.count e = 0 := by
  rcases h with rfl | rfl <;>
  · simp only [CapturePhysicalDriveMetadata]
    repeat' split
    all_goals simp_all

theorem dtorTrace_count_bc (v : VssEnv) (st : BackupState) :
    (dtorTrace v st).count Event.backupComplete = 0 := by
  simp only [dtorTrace, CleanupSubstDrive]
  repeat' split
  all_goals simp_all

theorem dtorTrace_zero (v : VssEnv) : dtorTrace v ⟨0⟩ = [] := by
  simp [dtorTrace, CleanupSubstDrive]

theorem findFreeLetterAux_pos (mask : Nat) :
    ∀ r c, findFreeLetterAux mask c r ≠ 0 →
      c ≤ findFreeLetterAux mask c r ∧ findFreeLetterAux mask c r < c + r ∧
      mask.testBit (findFreeLetterAux mask c r - 65) = false ∧
      ∀ d, c ≤ d → d < findFreeLetterAux mask c r → mask.testBit (d - 65) = true := by
  intro r
  induction r with
  | zero => intro c h; simp [findFreeLetterAux] at h
  | succ n ih =>
    intro c h
    by_cases hb : mask.testBit (c - 65)
    · have heq : findFreeLetterAux mask c (n + 1) = findFreeLetterAux mask (c + 1) n := by
        simp [findFreeLetterAux, hb]
      rw [heq] at h ⊢
      obtain ⟨h1, h2, h3, h4⟩ := ih (c + 1) h
      refine ⟨by omega, by omega, h3, ?_⟩
      intro d hd1 hd2
      by_cases hdc : d = c
      · subst hdc; exact hb
      · exact h4 d (by omega) hd2
    · have heq : findFreeLetterAux mask c (n + 1) = c := by
        simp [findFreeLetterAux, hb]
      rw [heq] at h ⊢
      refine ⟨le_refl c, by omega, by simpa using hb, ?_⟩
      intro d hd1 hd2
      omega

theorem findFreeLetterAux_all_used (mask : Nat) :
    ∀ r c, (∀ d, c ≤ d → d < c + r → mask.testBit (d - 65) = true) →
      findFreeLetterAux mask c r = 0 := by
  intro r
  induction r with
  | zero => intro c _; rfl
  | succ n ih =>
    intro c h
    have hb : mask.testBit (c - 65) = true := h c (le_refl c) (by omega)
    simp only [findFreeLetterAux, hb, if_true]
    exact ih (c + 1) (fun d hd1 hd2 => h d (by omega) (by omega))

theorem allLettersInUse_testBit {mask : Nat} (h : allLettersInUse mask = true) :
    ∀ d, 67 ≤ d → d < 91 → mask.testBit (d - 65) = true := by
  intro d h1 h2
  have hm : d - 67 ∈ List.range 24 := by
    simp [List.mem_range]
    omega
  have := List.all_eq_true.mp h (d - 67) hm
  have heq : d - 67 + 2 = d - 65 := by omega
  simpa [heq] using this

theorem flb_unmap_once (v : VssEnv) (st : BackupState) (h : mapSucceeds v = true) :
    (FileLevelBackup v st).trace.count Event.substUnmap = 1 ∧
    (FileLevelBackup v st).state = ⟨0⟩ := by
  simp only [mapSucceeds, Bool.and_eq_true] at h
  obtain ⟨⟨⟨hg, hs⟩, hf⟩, hm⟩ := h
  have hg2 : FAILED v.hrGetSnapshotProps = false := by simpa using hg
  have hs2 : v.shadowPath.isEmpty = false := by simpa using hs
  have hf2 : ¬ FindAvailableDriveLetter v.drivesMask = 0 := by simpa using hf
  have hm2 : v.substMapResult = 0 := by simpa using hm
  simp [FileLevelBackup, CleanupSubstDrive, hg2, hs2, hf2, hm2]
  repeat' split
  all_goals simp_all

theorem flb_setUnmap_ok (v : VssEnv) (r : Int) (st : BackupState) :
    (FileLevelBackup { v with substUnmapResult := r } st).ok = (FileLevelBackup v st).ok := by
  simp only [FileLevelBackup, CleanupSubstDrive]
  repeat' split
  all_goals simp_all

theorem wmain_exitCode (env : WmainEnv) :
    (wmain env).exitCode = if fullSuccess env then 0 else 1 := by
  by_cases h1 : env.adminOk <;>
  by_cases h2 : env.destInput.isEmpty <;>
  by_cases h3 : (Initialize env.vss).1 <;>
  by_cases h4 : (CreateSnapshot env.vss).1 <;>
  by_cases h5 : (FileLevelBackup env.vss ⟨0⟩).ok <;>
  by_cases h6 : (CleanupVss env.vss true).1 <;>
  by_cases h7 : (CapturePhysicalDriveMetadata env.meta).ok <;>
  simp [wmain, fullSuccess, h1, h2, h3, h4, h5, h6, h7]

theorem wmain_count_bc (env : WmainEnv) :
    (wmain env).trace.count Event.backupComplete = if reachesCleanup env then 1 else 0 := by
  by_cases h1 : env.adminOk <;>
  by_cases h2 : env.destInput.isEmpty <;>
  by_cases h3 : (Initialize env.vss).1 <;>
  by_cases h4 : (CreateSnapshot env.vss).1 <;>
  by_cases h5 : (FileLevelBackup env.vss ⟨0⟩).ok <;>
  by_cases h6 : (CleanupVss env.vss true).1 <;>
  by_cases h7 : (CapturePhysicalDriveMetadata env.meta).ok <;>
  simp [wmain, reachesCleanup, h1, h2, h3, h4, h5, h6, h7, List.count_append,
        initialize_count_zero env.vss Event.backupComplete (Or.inl rfl),
        createSnapshot_count_zero env.vss Event.backupComplete (Or.inl rfl),
        flb_count_bc, cleanupVss_count_bc,
        meta_count_zero env.meta Event.backupComplete (Or.inl rfl),
        dtorTrace_count_bc]

theorem wmain_unmap_once (env : WmainEnv) (hr : reachesFileBackup env = true)
    (hm : mapSucceeds env.vss = true) :
    (wmain env).trace.count Event.substUnmap = 1 := by
  simp only [reachesFileBackup, Bool.and_eq_true] at hr
  obtain ⟨⟨⟨ha, hd⟩, hi⟩, hs⟩ := hr
  have hd2 : env.destInput.isEmpty = false := by simpa using hd
  have hcount := flb_unmap_once env.vss ⟨0⟩ hm
  by_cases h5 : (FileLevelBackup env.vss ⟨0⟩).ok <;>
  by_cases h6 : (CleanupVss env.vss true).1 <;>
  by_cases h7 : (CapturePhysicalDriveMetadata env.meta).ok <;>
  simp [wmain, ha, hd2, hi, hs, h5, h6, h7, List.count_append,
        initialize_count_zero env.vss Event.substUnmap (Or.inr rfl),
        createSnapshot_count_zero env.vss Event.substUnmap (Or.inr (Or.inl rfl)),
        cleanupVss_count_su, meta_count_zero env.meta Event.substUnmap (Or.inr rfl),
        hcount.1, hcount.2, dtorTrace_zero]

theorem initialize_mem_coInit (v : VssEnv) : Event.coInitialize ∈ (Initialize v).2 := by
  simp only [Initialize]
  repeat' split
  all_goals decide

/-- Claim C1, counterexample: in a job whose VSS initialization fails (here
`CoInitializeEx` returns E_FAIL), `wmain` exits 1 and the session-finalization
call `BackupComplete` is issued zero times, not exactly once — refuting the
claim that `complete()` is invoked exactly once regardless of whether
initialization succeeded. -/
theorem wmain_initFailure_backupComplete_not_once :
    (wmain wInitFail).exitCode = 1 ∧
    (wmain wInitFail).trace.count Event.backupComplete = 0 := by decide

/-- Claim C1, amended: the session-finalization operation (`BackupComplete`,
via `VSSFileLevelBackup::Cleanup`) is invoked exactly once per `wmain` job
exactly when the admin and destination checks passed and initialization,
snapshot creation and the file-level copy all succeeded; if any of those
failed, `wmain` exits without invoking it at all (and it is never invoked
more than once). -/
theorem wmain_backupComplete_invocation_count (env : WmainEnv) :
    (wmain env).trace.count Event.backupComplete =
      if reachesCleanup env then 1 else 0 :=
  wmain_count_bc env

/-- Claim C2: `CreateSnapshot` coincides with the spec-side strict phase
machine: it runs start-snapshot-set, add-the-single-source-volume, prepare
(blocking on its asynchronous wait), commit snapshot (blocking on its
asynchronous wait) strictly in this order, skipping and reordering nothing,
and the first failing phase stops the run — no later phase is started — with
the operation returning failure. -/
theorem createSnapshot_strict_phase_order (v : VssEnv) :
    CreateSnapshot v = runPhases (snapshotPhaseSteps v) :=
  createSnapshot_runPhases v

/-- Claim C3: in every run of the file-level backup in which the alias
mapping of the allocated drive letter to the shadow device succeeds, the
unmap (`subst X: /d`) is performed exactly once before the job ends — on the
copy-success, enumeration-failure and copy-failure exit paths alike, the
destructor included — and replacing the unmap call's own exit code by any
value changes neither the unmap count nor the program's exit code. -/
theorem fileLevelBackup_unmap_exactly_once (env : WmainEnv)
    (hr : reachesFileBackup env = true) (hm : mapSucceeds env.vss = true) :
    (wmain env).trace.count Event.substUnmap = 1 ∧
    ∀ r : Int,
      (wmain (setUnmapResult env r)).trace.count Event.substUnmap = 1 ∧
      (wmain (setUnmapResult env r)).exitCode = (wmain env).exitCode := by
  refine ⟨wmain_unmap_once env hr hm, ?_⟩
  intro r
  have hr2 : reachesFileBackup (setUnmapResult env r) = true := by
    have he : reachesFileBackup (setUnmapResult env r) = reachesFileBackup env := rfl
    rw [he, hr]
  have hm2 : mapSucceeds (setUnmapResult env r).vss = true := by
    have he : mapSucceeds (setUnmapResult env r).vss = mapSucceeds env.vss := rfl
    rw [he, hm]
  refine ⟨wmain_unmap_once _ hr2 hm2, ?_⟩
  rw [wmain_exitCode, wmain_exitCode]
  have hfs : fullSuccess (setUnmapResult env r) = fullSuccess env := by
    have hf := flb_setUnmap_ok env.vss r ⟨0⟩
    simp only [fullSuccess, setUnmapResult]
    rw [show Initialize { env.vss with substUnmapResult := r } = Initialize env.vss from rfl,
        show CreateSnapshot { env.vss with substUnmapResult := r } =
          CreateSnapshot env.vss from rfl,
        show CleanupVss { env.vss with substUnmapResult := r } true =
          CleanupVss env.vss true from rfl,
        hf]
  rw [hfs]

/-- Witness for claim C3 at the fully successful concrete run `wOK`. -/
theorem fileLevelBackup_unmap_exactly_once_witness :
    reachesFileBackup wOK = true ∧ mapSucceeds wOK.vss = true ∧
    ((wmain wOK).trace.count Event.substUnmap = 1 ∧
     ∀ r : Int,
       (wmain (setUnmapResult wOK r)).trace.count Event.substUnmap = 1 ∧
       (wmain (setUnmapResult wOK r)).exitCode = (wmain wOK).exitCode) :=
  ⟨by decide, by decide, fileLevelBackup_unmap_exactly_once wOK (by decide) (by decide)⟩

/-- Claim C4, counterexample: a run in which the snapshot tree is empty and
the destination already holds `stale.txt` succeeds, yet `stale.txt` — a
pre-existing destination entry with no counterpart in the source tree — is
still present afterwards: `std::filesystem::copy` with
`recursive | overwrite_existing` removes nothing, so the destination is not
an exact mirror of the source. -/
theorem fileLevelBackup_stale_dest_entry_survives :
    (FileLevelBackup vStaleDest ⟨0⟩).ok = true ∧
    tlookup vStaleDest.shadowTree ["stale.txt"] = none ∧
    tlookup (FileLevelBackup vStaleDest ⟨0⟩).dest ["stale.txt"] = some [7] := by decide

/-- Claim C4, amended: after a successful copy of the mapped snapshot path to
the destination, files present in both trees have been overwritten with the
source content and source-only files have been created, but pre-existing
destination entries with no counterpart in the source are preserved rather
than removed — the destination is the union of the two trees favouring the
source, not an exact mirror. -/
theorem fileLevelBackup_success_union_not_mirror (v : VssEnv) (st : BackupState)
    (hg : FAILED v.hrGetSnapshotProps = false) (hs : v.shadowPath.isEmpty = false)
    (hf : ¬ FindAvailableDriveLetter v.drivesMask = 0) (hm : v.substMapResult = 0)
    (he : v.enumOk = true) (hc : v.copyThrows = false) :
    (FileLevelBackup v st).ok = true ∧
    ∀ p, tlookup (FileLevelBackup v st).dest p =
      ofirst (tlookup v.shadowTree p) (tlookup v.destTree p) := by
  have hres : (FileLevelBackup v st).ok = true ∧
      (FileLevelBackup v st).dest = copyRecursiveOverwrite v.shadowTree v.destTree := by
    simp [FileLevelBackup, CleanupSubstDrive, hg, hs, hf, hm, he, hc]
  refine ⟨hres.1, ?_⟩
  rw [hres.2]
  exact fun p => copyRecursiveOverwrite_lookup _ _ p

/-- Witness for the amended claim C4 at the concrete run `vStaleDest`. -/
theorem fileLevelBackup_success_union_not_mirror_witness :
    FAILED vStaleDest.hrGetSnapshotProps = false ∧
    vStaleDest.shadowPath.isEmpty = false ∧
    ¬ FindAvailableDriveLetter vStaleDest.drivesMask = 0 ∧
    vStaleDest.substMapResult = 0 ∧ vStaleDest.enumOk = true ∧
    vStaleDest.copyThrows = false ∧
    ((FileLevelBackup vStaleDest ⟨0⟩).ok = true ∧
     ∀ p, tlookup (FileLevelBackup vStaleDest ⟨0⟩).dest p =
       ofirst (tlookup vStaleDest.shadowTree p) (tlookup vStaleDest.destTree p)) :=
  ⟨by decide, by decide, by decide, by decide, by decide, by decide,
   fileLevelBackup_success_union_not_mirror vStaleDest ⟨0⟩ (by decide) (by decide)
     (by decide) (by decide) (by decide) (by decide)⟩

/-- Claim C5, counterexample: a failure to access one individual file makes
`std::filesystem::copy` throw `filesystem_error` (`vLockedFile.copyThrows`),
and `FileLevelBackup` then returns `false` — exactly the same result value as
the total enumeration failure of `vEnumFail`.  The job aborts instead of
skipping and counting the file, and the boolean result admits no
`PartialSuccess` value distinct from total failure. -/
theorem fileLevelBackup_locked_file_total_failure :
    (FileLevelBackup vLockedFile ⟨0⟩).ok = false ∧
    (FileLevelBackup vEnumFail ⟨0⟩).ok = false ∧
    (FileLevelBackup vLockedFile ⟨0⟩).ok = (FileLevelBackup vEnumFail ⟨0⟩).ok := by decide

/-- Claim C5, amended: an individual file access failure during the copy
raises an exception that aborts the whole job: after the copy call was issued,
`FileLevelBackup` removes the drive mapping exactly once and returns the same
boolean failure used for total failures; no skip count is kept and no
`PartialSuccess` status exists. -/
theorem fileLevelBackup_copy_exception_aborts_job (v : VssEnv) (st : BackupState)
    (hg : FAILED v.hrGetSnapshotProps = false) (hs : v.shadowPath.isEmpty = false)
    (hf : ¬ FindAvailableDriveLetter v.drivesMask = 0) (hm : v.substMapResult = 0)
    (he : v.enumOk = true) (hc : v.copyThrows = true) :
    (FileLevelBackup v st).ok = false ∧
    (FileLevelBackup v st).trace.count Event.substUnmap = 1 ∧
    Event.copyCall ∈ (FileLevelBackup v st).trace := by
  by_cases hu : v.substUnmapResult ≠ 0 <;>
  simp [FileLevelBackup, CleanupSubstDrive, hg, hs, hf, hm, he, hc, hu]

/-- Witness for the amended claim C5 at the concrete run `vLockedFile`. -/
theorem fileLevelBackup_copy_exception_aborts_job_witness :
    FAILED vLockedFile.hrGetSnapshotProps = false ∧
    vLockedFile.shadowPath.isEmpty = false ∧
    ¬ FindAvailableDriveLetter vLockedFile.drivesMask = 0 ∧
    vLockedFile.substMapResult = 0 ∧ vLockedFile.enumOk = true ∧
    vLockedFile.copyThrows = true ∧
    ((FileLevelBackup vLockedFile ⟨0⟩).ok = false ∧
     (FileLevelBackup vLockedFile ⟨0⟩).trace.count Event.substUnmap = 1 ∧
     Event.copyCall ∈ (FileLevelBackup vLockedFile ⟨0⟩).trace) :=
  ⟨by decide, by decide, by decide, by decide, by decide, by decide,
   fileLevelBackup_copy_exception_aborts_job vLockedFile ⟨0⟩ (by decide) (by decide)
     (by decide) (by decide) (by decide) (by decide)⟩

/-- Claim C6: `FindAvailableDriveLetter` returns the first drive letter of
the enumerable alias space C..Z whose bit is clear in the logical-drives
bitmask (every earlier letter of the space being in use); when every letter
of the space is in use it returns the sentinel 0; and in that case
`FileLevelBackup` returns failure without issuing any mapping call. -/
theorem findAvailableDriveLetter_first_free_or_none :
    (∀ mask : Nat, FindAvailableDriveLetter mask ≠ 0 →
       67 ≤ FindAvailableDriveLetter mask ∧ FindAvailableDriveLetter mask ≤ 90 ∧
       mask.testBit (FindAvailableDriveLetter mask - 65) = false ∧
       ∀ d, 67 ≤ d → d < FindAvailableDriveLetter mask →
         mask.testBit (d - 65) = true) ∧
    (∀ mask : Nat, allLettersInUse mask = true → FindAvailableDriveLetter mask = 0) ∧
    (∀ (v : VssEnv) (st : BackupState),
       FAILED v.hrGetSnapshotProps = false → v.shadowPath.isEmpty = false →
       FindAvailableDriveLetter v.drivesMask = 0 →
       (FileLevelBackup v st).ok = false ∧
       Event.substMap ∉ (FileLevelBackup v st).trace) := by
  refine ⟨?_, ?_, ?_⟩
  · intro mask h
    simp only [FindAvailableDriveLetter] at h ⊢
    obtain ⟨h1, h2, h3, h4⟩ := findFreeLetterAux_pos mask 24 67 h
    exact ⟨h1, by omega, h3, h4⟩
  · intro mask h
    exact findFreeLetterAux_all_used mask 24 67
      (fun d hd1 hd2 => allLettersInUse_testBit h d hd1 (by omega))
  · intro v st hg hs hf
    simp [FileLevelBackup, hg, hs, hf]

/-- Witness for claim C6: with mask 4 (only C in use) the scan returns a free
letter with the stated properties; with mask 2^26 - 1 (all letters in use) it
returns 0 and the file-level backup of `vAllUsed` fails without a mapping
call. -/
theorem findAvailableDriveLetter_first_free_or_none_witness :
    (FindAvailableDriveLetter 4 ≠ 0 ∧
     (67 ≤ FindAvailableDriveLetter 4 ∧ FindAvailableDriveLetter 4 ≤ 90 ∧
      Nat.testBit 4 (FindAvailableDriveLetter 4 - 65) = false ∧
      ∀ d, 67 ≤ d → d < FindAvailableDriveLetter 4 →
        Nat.testBit 4 (d - 65) = true)) ∧
    (allLettersInUse 67108863 = true ∧ FindAvailableDriveLetter 67108863 = 0) ∧
    (FAILED vAllUsed.hrGetSnapshotProps = false ∧
     vAllUsed.shadowPath.isEmpty = false ∧
     FindAvailableDriveLetter vAllUsed.drivesMask = 0 ∧
     ((FileLevelBackup vAllUsed ⟨0⟩).ok = false ∧
      Event.substMap ∉ (FileLevelBackup vAllUsed ⟨0⟩).trace)) :=
  ⟨⟨by decide, findAvailableDriveLetter_first_free_or_none.1 4 (by decide)⟩,
   ⟨by decide, findAvailableDriveLetter_first_free_or_none.2.1 67108863 (by decide)⟩,
   ⟨by decide, by decide, by decide,
    findAvailableDriveLetter_first_free_or_none.2.2 vAllUsed ⟨0⟩ (by decide) (by decide)
      (by decide)⟩⟩

/-- Claim C7: `CapturePhysicalDriveMetadata` persists to `boot_record.bin`
exactly the bytes the device read actually delivered — never zero-padded to
the 4096-byte buffer capacity, and at most 4096 bytes — and persists to
`drive_layout.bin` exactly the bytes the layout query reports as returned,
not the full allocated buffer capacity. -/
theorem captureMetadata_persists_exact_byte_counts (m : MetaEnv)
    (hlen : m.readData.length ≤ 4096)
    (ho : m.openOk = true) (hr : m.readOk = true) (hb : m.bootFileOpenOk = true)
    (hw : m.bootWriteThrows = false) :
    (CapturePhysicalDriveMetadata m).bootArtifact = some m.readData ∧
    (∀ b, (CapturePhysicalDriveMetadata m).bootArtifact = some b → b.length ≤ 4096) ∧
    (m.ioctlOk = true → m.layoutFileOpenOk = true → m.layoutWriteThrows = false →
      (CapturePhysicalDriveMetadata m).layoutArtifact = some m.layoutData) := by
  have hboot : (m.readData ++ m.bootJunk).take m.readData.length = m.readData :=
    List.take_left _ _
  have hlay : (m.layoutData ++ m.layoutJunk).take m.layoutData.length = m.layoutData :=
    List.take_left _ _
  have h1 : (CapturePhysicalDriveMetadata m).bootArtifact = some m.readData := by
    simp [CapturePhysicalDriveMetadata, ho, hr, hb, hw]
    repeat' split
    all_goals simp_all
  refine ⟨h1, ?_, ?_⟩
  · intro b hb2
    rw [h1] at hb2
    injection hb2 with h2
    rw [← h2]
    exact hlen
  · intro hi hl hwl
    simp [CapturePhysicalDriveMetadata, ho, hr, hb, hw, hi, hl, hwl, hlay]

/-- Witness for claim C7 at the concrete environment `mOK`, whose device
delivers a 3-byte short read out of the 4096-byte buffer and whose layout
query reports 2 returned bytes out of a larger buffer. -/
theorem captureMetadata_persists_exact_byte_counts_witness :
    mOK.readData.length ≤ 4096 ∧ mOK.openOk = true ∧ mOK.readOk = true ∧
    mOK.bootFileOpenOk = true ∧ mOK.bootWriteThrows = false ∧
    ((CapturePhysicalDriveMetadata mOK).bootArtifact = some mOK.readData ∧
     (∀ b, (CapturePhysicalDriveMetadata mOK).bootArtifact = some b →
        b.length ≤ 4096) ∧
     (mOK.ioctlOk = true → mOK.layoutFileOpenOk = true →
        mOK.layoutWriteThrows = false →
        (CapturePhysicalDriveMetadata mOK).layoutArtifact = some mOK.layoutData)) :=
  ⟨by decide, by decide, by decide, by decide, by decide,
   captureMetadata_persists_exact_byte_counts mOK (by decide) (by decide) (by decide)
     (by decide) (by decide)⟩

/-- Claim C8, counterexample: when the boot-record read fails (`mReadFail`),
`CapturePhysicalDriveMetadata` returns failure without ever issuing the
layout query and without producing `drive_layout.bin`, even though the layout
query and its file write would have succeeded — so the layout capture IS
blocked by the boot-record capture's failure, refuting the claimed mutual
independence. -/
theorem captureMetadata_boot_failure_blocks_layout :
    (CapturePhysicalDriveMetadata mReadFail).ok = false ∧
    (CapturePhysicalDriveMetadata mReadFail).layoutArtifact = none ∧
    Event.layoutQuery ∉ (CapturePhysicalDriveMetadata mReadFail).trace ∧
    mReadFail.ioctlOk = true ∧ mReadFail.layoutFileOpenOk = true ∧
    mReadFail.layoutWriteThrows = false := by decide

/-- Claim C8, amended: the two captures are sequential steps of one function,
independent in one direction only: the boot-record capture can succeed while
the layout capture fails (the already-written `boot_record.bin` persists and
the failure is reported), but a boot-record failure returns before the layout
query is ever issued, so no layout artifact can exist without a boot
artifact. -/
theorem captureMetadata_sequential_not_independent (m : MetaEnv) :
    (m.openOk = true → m.readOk = true → m.bootFileOpenOk = true →
      m.bootWriteThrows = false → m.ioctlOk = false →
      (CapturePhysicalDriveMetadata m).bootArtifact =
        some ((m.readData ++ m.bootJunk).take m.readData.length) ∧
      (CapturePhysicalDriveMetadata m).layoutArtifact = none ∧
      (CapturePhysicalDriveMetadata m).ok = false) ∧
    (m.readOk = false → m.openOk = true →
      Event.layoutQuery ∉ (CapturePhysicalDriveMetadata m).trace ∧
      (CapturePhysicalDriveMetadata m).layoutArtifact = none) := by
  constructor
  · intro ho hr hb hw hi
    simp [CapturePhysicalDriveMetadata, ho, hr, hb, hw, hi]
  · intro hr ho
    simp [CapturePhysicalDriveMetadata, ho, hr]

/-- Witness for the amended claim C8: `mIoctlFail` shows boot success with
layout failure; `mReadFail` shows a boot failure preventing the layout
query. -/
theorem captureMetadata_sequential_not_independent_witness :
    (mIoctlFail.openOk = true ∧ mIoctlFail.readOk = true ∧
     mIoctlFail.bootFileOpenOk = true ∧ mIoctlFail.bootWriteThrows = false ∧
     mIoctlFail.ioctlOk = false ∧
     ((CapturePhysicalDriveMetadata mIoctlFail).bootArtifact =
        some ((mIoctlFail.readData ++ mIoctlFail.bootJunk).take
          mIoctlFail.readData.length) ∧
      (CapturePhysicalDriveMetadata mIoctlFail).layoutArtifact = none ∧
      (CapturePhysicalDriveMetadata mIoctlFail).ok = false)) ∧
    (mReadFail.readOk = false ∧ mReadFail.openOk = true ∧
     (Event.layoutQuery ∉ (CapturePhysicalDriveMetadata mReadFail).trace ∧
      (CapturePhysicalDriveMetadata mReadFail).layoutArtifact = none)) :=
  ⟨⟨by decide, by decide, by decide, by decide, by decide,
    (captureMetadata_sequential_not_independent mIoctlFail).1 (by decide) (by decide)
      (by decide) (by decide) (by decide)⟩,
   ⟨by decide, by decide,
    (captureMetadata_sequential_not_independent mReadFail).2 (by decide) (by decide)⟩⟩

/-- Claim C9: the process exit code of `wmain` is 0 exactly when the whole
job fully succeeded (admin check, destination given, VSS initialization,
snapshot creation, file-level copy, session completion and metadata capture
all successful) and 1 — nonzero — whenever any of those failed. -/
theorem wmain_exit_zero_iff_full_success (env : WmainEnv) :
    (wmain env).exitCode = if fullSuccess env then 0 else 1 :=
  wmain_exitCode env

/-- Claim C10: when the admin check passes, an empty volume-prompt input
makes `wmain` substitute the default source volume `"C:\"` and proceed with
the backup (VSS initialization is attempted), whereas an empty
destination-folder input terminates the program with exit code 1 before any
external backup call is issued. -/
theorem wmain_empty_volume_default_empty_dest_reject (env : WmainEnv) :
    (env.adminOk = true → env.volumeInput = [] → env.destInput ≠ [] →
      (wmain env).volumeUsed = cRoot ∧ Event.coInitialize ∈ (wmain env).trace) ∧
    (env.adminOk = true → env.destInput = [] →
      (wmain env).exitCode = 1 ∧ (wmain env).trace = []) := by
  constructor
  · intro ha hv hd
    have hd2 : env.destInput.isEmpty = false := by
      simp [List.isEmpty_iff]
      exact hd
    have hv2 : env.volumeInput.isEmpty = true := by simp [hv]
    by_cases h3 : (Initialize env.vss).1 <;>
    by_cases h4 : (CreateSnapshot env.vss).1 <;>
    by_cases h5 : (FileLevelBackup env.vss ⟨0⟩).ok <;>
    by_cases h6 : (CleanupVss env.vss true).1 <;>
    by_cases h7 : (CapturePhysicalDriveMetadata env.meta).ok <;>
    simp [wmain, ha, hv2, hd2, h3, h4, h5, h6, h7, initialize_mem_coInit env.vss]
  · intro ha hd
    simp [wmain, ha, hd]

/-- Witness for claim C10: `wOK` exercises the empty-volume default and
`wEmptyDest` the empty-destination rejection. -/
theorem wmain_empty_volume_default_empty_dest_reject_witness :
    (wOK.adminOk = true ∧ wOK.volumeInput = [] ∧ wOK.destInput ≠ [] ∧
     ((wmain wOK).volumeUsed = cRoot ∧ Event.coInitialize ∈ (wmain wOK).trace)) ∧
    (wEmptyDest.adminOk = true ∧ wEmptyDest.destInput = [] ∧
     ((wmain wEmptyDest).exitCode = 1 ∧ (wmain wEmptyDest).trace = [])) :=
  ⟨⟨by decide, by decide, by decide,
    (wmain_empty_volume_default_empty_dest_reject wOK).1 (by decide) (by decide)
      (by decide)⟩,
   ⟨by decide, by decide,
    (wmain_empty_volume_default_empty_dest_reject wEmptyDest).2 (by decide) (by decide)⟩⟩
